import Mathlib

/-!
Verification of the batch task-execution core of the mapchete repository.

The definitions below are a shallow embedding of:
  * `src/mapchete/commands/_execute.py` (the `execute` orchestrator and the
    `_msg_wrapper` generator),
  * `src/mapchete/cli/default/convert.py` (the `convert` CLI body),
  * the `Executor` contract exercised by `src/test/test_executor.py`
    (the Executor implementation itself is not part of the sources, so it
    is modelled from the specification where a claim needs it).
-/

namespace Mapchete

/-- A process tile index `(zoom, row, col)` as handed to
`raw_conf_process_pyramid(...).tile(*tile)`.  The tile object built by the
pyramid carries the zoom it was requested with; its bounds are geometry
computed by the (external) pyramid, modelled by an opaque function argument
`tileBoundsOf` below. -/
structure TileIdx where
  zoom : Int
  row : Int
  col : Int
deriving DecidableEq, Repr

/-- The observable effect of one call to `execute`
(src/mapchete/commands/_execute.py ll.91-152): the arguments passed to
`mapchete.open` (`openMode`, `openBounds`, `openZoom`), and the fields of the
constructed `mapchete.Job` (`concurrency`, the `fkwargs` entries and `total`). -/
structure JobSpec (B Z : Type) where
  openMode : String
  openBounds : Option B
  openZoom : Option Z
  concurrency : Option String
  fkwargsTile : Option TileIdx
  fkwargsMulti : Option Int
  fkwargsZoom : Option Z
  total : Nat
deriving DecidableEq

/-- Python `x or d` for an optional integer `x`: `None` and `0` are falsy,
every other integer is truthy.  Embeds line 97 `multi = multi or cpu_count()`. -/
def pyOrInt : Option Int → Int → Int
  | none, d => d
  | some m, d => if m = 0 then d else m

/-- Python truthiness of an optional string (`if dask_scheduler:` on line 127):
`None` and the empty string are falsy. -/
def pyTruthyOptStr : Option String → Bool
  | none => false
  | some s => s != ""

/-- Shallow embedding of `execute` from src/mapchete/commands/_execute.py.

External collaborators appear as explicit arguments:
`tileBoundsOf`/`tileZoomOf` give `tile.bounds`/`tile.zoom` of the pyramid tile
built on line 100, `boundsFromOpts` is the external `bounds_from_opts` call of
ll.104-110 (as a function of the user-supplied bounds), `countTiles` is the
value returned by `mp.count_tiles()` on line 122, and `cpuCount` is the value
of `multiprocessing.cpu_count()` read on line 97.

Field by field:
  * `openMode`   — line 91 `mode = "overwrite" if overwrite else mode`,
                   passed to `mapchete.open` on line 115;
  * `openBounds`/`openZoom` — ll.99-110: the tile branch overrides both from
                   the tile, otherwise bounds come from `bounds_from_opts`;
  * `concurrency` — ll.127-132, with `multi` already rebound by line 97 so the
                   `multi is None` test on line 129 compares the rebound value;
  * `fkwargsTile`/`fkwargsMulti`/`fkwargsZoom` — ll.139-143;
  * `total`      — line 151 `total=1 if tile else tiles_count`. -/
def execute {B Z : Type}
    (tileBoundsOf : TileIdx → B) (tileZoomOf : TileIdx → Z)
    (boundsFromOpts : Option B → Option B) (countTiles : Nat) (cpuCount : Int)
    (zoom : Option Z) (bounds : Option B) (tile : Option TileIdx)
    (overwrite : Bool) (mode : String) (multi : Option Int)
    (daskScheduler : Option String) : JobSpec B Z :=
  { openMode := if overwrite then "overwrite" else mode
    openBounds :=
      match tile with
      | some t => some (tileBoundsOf t)
      | none => boundsFromOpts bounds
    openZoom :=
      match tile with
      | some t => some (tileZoomOf t)
      | none => zoom
    concurrency :=
      if pyTruthyOptStr daskScheduler then some "dask"
      else if countTiles = 1 ∨ (some (pyOrInt multi cpuCount) : Option Int) = some 1
          ∨ (some (pyOrInt multi cpuCount) : Option Int) = none then none
      else some "processes"
    fkwargsTile := tile
    fkwargsMulti := some (pyOrInt multi cpuCount)
    fkwargsZoom :=
      match tile with
      | some _ => none
      | none => zoom
    total :=
      match tile with
      | some _ => 1
      | none => countTiles }

/-- The concurrency-mode selection exactly as claim C1 words it (spec §4.3):
distributed if a scheduler endpoint is configured, else sequential when
`tiles_count == 1` or `multi == 1` or `multi` is unset/None, else processes.
This definition follows the claim, to be compared against `execute`. -/
def specSelectedConcurrency (tilesCount : Nat) (multi : Option Int)
    (distributedConfigured : Bool) : Option String :=
  if distributedConfigured then some "dask"
  else if tilesCount = 1 ∨ multi = some 1 ∨ multi = none then none
  else some "processes"

/-- The amended concurrency-mode selection: `multi` is first defaulted through
`cpu_count` (Python `multi or cpu_count()`), and sequential mode is chosen
when the work set is a single tile or the effective worker count is 1. -/
def specSelectedConcurrencyAmended (tilesCount : Nat) (multi : Option Int)
    (cpuCount : Int) (distributedConfigured : Bool) : Option String :=
  if distributedConfigured then some "dask"
  else if tilesCount = 1 ∨ pyOrInt multi cpuCount = 1 then none
  else some "processes"

/-- C1 counterexample: with `tiles_count = 2`, `multi = None`, no distributed
scheduler and a machine with 4 CPUs, the claim's rule selects sequential
(`None`) but `execute` selects `"processes"`, because line 97 rebinds
`multi = multi or cpu_count()` before the selection on ll.127-132. -/
theorem concurrency_selection_claim_counterexample :
    specSelectedConcurrency 2 none false = none
    ∧ (execute (fun _ : TileIdx => (0 : Int)) TileIdx.zoom id 2 4
        none none none false "continue" none none).concurrency = some "processes" := by
  constructor
  · rfl
  · rfl

/-- C1 (amended): for every input, the concurrency mode selected by `execute`
is distributed (`"dask"`) if a scheduler endpoint is configured, else
sequential (`None`) if `tiles_count == 1` or the effective worker count
(`multi` if set and nonzero, else `cpu_count`) equals 1, else `"processes"`. -/
theorem concurrency_selection_amended {B Z : Type}
    (tileBoundsOf : TileIdx → B) (tileZoomOf : TileIdx → Z)
    (boundsFromOpts : Option B → Option B) (countTiles : Nat) (cpuCount : Int)
    (zoom : Option Z) (bounds : Option B) (tile : Option TileIdx)
    (overwrite : Bool) (mode : String) (multi : Option Int)
    (daskScheduler : Option String) :
    (execute tileBoundsOf tileZoomOf boundsFromOpts countTiles cpuCount
        zoom bounds tile overwrite mode multi daskScheduler).concurrency
      = specSelectedConcurrencyAmended countTiles multi cpuCount
          (pyTruthyOptStr daskScheduler) := by
  simp only [execute, specSelectedConcurrencyAmended, Option.some.injEq,
    reduceCtorEq, or_false]

/-- C2 counterexample: the two calls agree on `(tiles_count, multi,
distributed_configured) = (2, None, false)` but run on machines with 1 and 4
CPUs respectively, and select different concurrency modes — the selection is
not independent of the machine's CPU count. -/
theorem concurrency_selection_cpu_dependence_counterexample :
    (execute (fun _ : TileIdx => (0 : Int)) TileIdx.zoom id 2 1
        none none none false "continue" none none).concurrency
      ≠ (execute (fun _ : TileIdx => (0 : Int)) TileIdx.zoom id 2 4
        none none none false "continue" none none).concurrency := by
  decide

/-- C2 (amended): the concurrency-mode selection is a deterministic pure
function of `(tiles_count, multi, distributed_configured, cpu_count)`; in
particular, whenever `multi` is supplied as a nonzero value, the selection is
independent of the CPU count and of every other argument of `execute`. -/
theorem concurrency_selection_pure (B Z B2 Z2 : Type)
    (f : TileIdx → B) (g : TileIdx → Z) (o : Option B → Option B)
    (p : TileIdx → B2) (q : TileIdx → Z2) (r : Option B2 → Option B2)
    (countTiles : Nat) (c1 c2 : Int) (z1 : Option Z) (z2 : Option Z2)
    (b1 : Option B) (b2 : Option B2) (t1 t2 : Option TileIdx)
    (w1 w2 : Bool) (m1 m2 : String) (multi : Option Int) (m : Int)
    (daskScheduler : Option String)
    (hm : multi = some m) (hmz : m ≠ 0) :
    (execute f g o countTiles c1 z1 b1 t1 w1 m1 multi daskScheduler).concurrency
      = (execute p q r countTiles c2 z2 b2 t2 w2 m2 multi daskScheduler).concurrency := by
  subst hm
  simp only [execute, pyOrInt, if_neg hmz]

/-- C2 witness: with `multi = 3` the selection agrees across CPU counts 1
and 8. -/
theorem concurrency_selection_pure_witness :
    ((some (3 : Int) : Option Int) = some 3 ∧ (3 : Int) ≠ 0)
    ∧ (execute (fun _ : TileIdx => (0 : Nat)) TileIdx.zoom id 5 1
        none none none false "continue" (some 3) none).concurrency
      = (execute (fun _ : TileIdx => (0 : Nat)) TileIdx.zoom id 5 8
        none none none false "continue" (some 3) none).concurrency :=
  ⟨⟨rfl, by decide⟩,
    concurrency_selection_pure Nat Int Nat Int
      (fun _ => 0) TileIdx.zoom id (fun _ => 0) TileIdx.zoom id
      5 1 8 none none none none none none false false "continue" "continue"
      (some 3) 3 none rfl (by decide)⟩

/-- C8: the work-set size is resolved (`mp.count_tiles()`, line 122) before the
Job is built, and `total` is known up front: a supplied single-tile selector
gives `total = 1`, otherwise `total` equals the resolved tile count
(line 151). -/
theorem job_total_known_up_front {B Z : Type}
    (tileBoundsOf : TileIdx → B) (tileZoomOf : TileIdx → Z)
    (boundsFromOpts : Option B → Option B) (countTiles : Nat) (cpuCount : Int)
    (zoom : Option Z) (bounds : Option B) (tile : Option TileIdx)
    (overwrite : Bool) (mode : String) (multi : Option Int)
    (daskScheduler : Option String) :
    (∀ t, tile = some t →
      (execute tileBoundsOf tileZoomOf boundsFromOpts countTiles cpuCount
          zoom bounds tile overwrite mode multi daskScheduler).total = 1)
    ∧ (tile = none →
      (execute tileBoundsOf tileZoomOf boundsFromOpts countTiles cpuCount
          zoom bounds tile overwrite mode multi daskScheduler).total = countTiles) := by
  constructor
  · intro t ht
    subst ht
    rfl
  · intro ht
    subst ht
    rfl

/-- C8 witness: with the tile selector `(3, 1, 2)` the total is 1, and without
a selector the total is the resolved count 42. -/
theorem job_total_known_up_front_witness :
    ((some (TileIdx.mk 3 1 2) : Option TileIdx) = some (TileIdx.mk 3 1 2)
      ∧ (execute (fun _ : TileIdx => (0 : Nat)) TileIdx.zoom id 42 4
          none none (some (TileIdx.mk 3 1 2)) false "continue" none none).total = 1)
    ∧ ((none : Option TileIdx) = none
      ∧ (execute (fun _ : TileIdx => (0 : Nat)) TileIdx.zoom id 42 4
          none none none false "continue" none none).total = 42) :=
  ⟨⟨rfl, (job_total_known_up_front (fun _ : TileIdx => (0 : Nat)) TileIdx.zoom id 42 4
      none none (some (TileIdx.mk 3 1 2)) false "continue" none none).1
      (TileIdx.mk 3 1 2) rfl⟩,
   ⟨rfl, (job_total_known_up_front (fun _ : TileIdx => (0 : Nat)) TileIdx.zoom id 42 4
      none none none false "continue" none none).2 rfl⟩⟩

/-- C9: `mode = "overwrite" if overwrite else mode` (line 91) — with
`overwrite` the mode passed to `mapchete.open` is `"overwrite"` regardless of
the supplied mode; otherwise the supplied mode is used unchanged. -/
theorem overwrite_forces_mode {B Z : Type}
    (tileBoundsOf : TileIdx → B) (tileZoomOf : TileIdx → Z)
    (boundsFromOpts : Option B → Option B) (countTiles : Nat) (cpuCount : Int)
    (zoom : Option Z) (bounds : Option B) (tile : Option TileIdx)
    (overwrite : Bool) (mode : String) (multi : Option Int)
    (daskScheduler : Option String) :
    (overwrite = true →
      (execute tileBoundsOf tileZoomOf boundsFromOpts countTiles cpuCount
          zoom bounds tile overwrite mode multi daskScheduler).openMode = "overwrite")
    ∧ (overwrite = false →
      (execute tileBoundsOf tileZoomOf boundsFromOpts countTiles cpuCount
          zoom bounds tile overwrite mode multi daskScheduler).openMode = mode) := by
  constructor
  · intro h
    subst h
    rfl
  · intro h
    subst h
    rfl

/-- C9 witness: with `overwrite = true` and supplied mode `"readonly"` the
opened mode is `"overwrite"`; with `overwrite = false` it stays
`"readonly"`. -/
theorem overwrite_forces_mode_witness :
    (true = true
      ∧ (execute (fun _ : TileIdx => (0 : Nat)) TileIdx.zoom id 5 4
          none none none true "readonly" none none).openMode = "overwrite")
    ∧ (false = false
      ∧ (execute (fun _ : TileIdx => (0 : Nat)) TileIdx.zoom id 5 4
          none none none false "readonly" none none).openMode = "readonly") :=
  ⟨⟨rfl, (overwrite_forces_mode (fun _ : TileIdx => (0 : Nat)) TileIdx.zoom id 5 4
      none none none true "readonly" none none).1 rfl⟩,
   ⟨rfl, (overwrite_forces_mode (fun _ : TileIdx => (0 : Nat)) TileIdx.zoom id 5 4
      none none none false "readonly" none none).2 rfl⟩⟩

/-- C10: when a tile selector is supplied (ll.99-102), the bounds and zoom
passed to `mapchete.open` come from the selected tile, overriding the
caller-supplied values, and the `zoom` forwarded in `fkwargs` to the batch
processor is `None` (line 142). -/
theorem tile_overrides_zoom_bounds {B Z : Type}
    (tileBoundsOf : TileIdx → B) (tileZoomOf : TileIdx → Z)
    (boundsFromOpts : Option B → Option B) (countTiles : Nat) (cpuCount : Int)
    (zoom : Option Z) (bounds : Option B) (tile : Option TileIdx)
    (overwrite : Bool) (mode : String) (multi : Option Int)
    (daskScheduler : Option String) (t : TileIdx) (ht : tile = some t) :
    (execute tileBoundsOf tileZoomOf boundsFromOpts countTiles cpuCount
        zoom bounds tile overwrite mode multi daskScheduler).openBounds
      = some (tileBoundsOf t)
    ∧ (execute tileBoundsOf tileZoomOf boundsFromOpts countTiles cpuCount
        zoom bounds tile overwrite mode multi daskScheduler).openZoom
      = some (tileZoomOf t)
    ∧ (execute tileBoundsOf tileZoomOf boundsFromOpts countTiles cpuCount
        zoom bounds tile overwrite mode multi daskScheduler).fkwargsZoom = none := by
  subst ht
  exact ⟨rfl, rfl, rfl⟩

/-- C10 witness: tile `(3, 1, 2)` with caller zoom 9 and caller bounds 7 —
the opened bounds are the tile's row (the concrete bounds function here),
the opened zoom is the tile's zoom 3, and the forwarded zoom is `None`. -/
theorem tile_overrides_zoom_bounds_witness :
    ((some (TileIdx.mk 3 1 2) : Option TileIdx) = some (TileIdx.mk 3 1 2))
    ∧ ((execute (fun t : TileIdx => t.row) TileIdx.zoom id 5 4
          (some (9 : Int)) (some (7 : Int)) (some (TileIdx.mk 3 1 2))
          false "continue" none none).openBounds = some 1
      ∧ (execute (fun t : TileIdx => t.row) TileIdx.zoom id 5 4
          (some (9 : Int)) (some (7 : Int)) (some (TileIdx.mk 3 1 2))
          false "continue" none none).openZoom = some 3
      ∧ (execute (fun t : TileIdx => t.row) TileIdx.zoom id 5 4
          (some (9 : Int)) (some (7 : Int)) (some (TileIdx.mk 3 1 2))
          false "continue" none none).fkwargsZoom = none) :=
  ⟨rfl, tile_overrides_zoom_bounds (fun t : TileIdx => t.row) TileIdx.zoom id 5 4
      (some (9 : Int)) (some (7 : Int)) (some (TileIdx.mk 3 1 2))
      false "continue" none none (TileIdx.mk 3 1 2) rfl⟩

/-- Observable events of the `execute`/`_msg_wrapper` control flow: a yielded
`ProcessInfo` value, a call to `mp.__exit__` (the resource release on
line 155 and line 168), or an exception escaping to the caller. -/
inductive Event (P E : Type) where
  | yield (p : P)
  | close
  | raise (e : E)
deriving DecidableEq

/-- True exactly for the resource-release event. -/
def isCloseEvent {P E : Type} : Event P E → Bool
  | Event.close => true
  | _ => false

/-- Number of `mp.__exit__` calls in a trace. -/
def closeCount {P E : Type} (tr : List (Event P E)) : Nat :=
  tr.countP isCloseEvent

/-- The `_msg_wrapper` generator body (src/mapchete/commands/_execute.py
ll.159-168) once it has been started: the `for` loop over
`mp.batch_processor(...)` yields each produced `process_info`; the `finally`
clause calls `mp.__exit__` exactly when the body is left.

`stream` is what `batch_processor` yields, `err` an exception it raises after
its last yield (mid-stream task failures are streams cut short by an error),
and the `limit` is the consumer: `some k` pulls `k` items and then abandons
the generator (Python then closes it, running the `finally` clause via
`GeneratorExit`), `none` drains it.  Cases:
  * consumer stops (`some 0` reached after at least one yield): close;
  * stream exhausted: the loop ends; an exception from `batch_processor`
    runs the `finally` clause and then propagates, otherwise the generator
    returns after the `finally` clause;
  * otherwise: yield the next item and continue. -/
def msgWrapperGo {P E : Type} : List P → Option E → Option Nat → List (Event P E)
  | _, _, some 0 => [Event.close]
  | [], some e, _ => [Event.close, Event.raise e]
  | [], none, _ => [Event.close]
  | p :: rest, err, some (k + 1) => Event.yield p :: msgWrapperGo rest err (some k)
  | p :: rest, err, none => Event.yield p :: msgWrapperGo rest err none

/-- Full consumer-driven run of the `_msg_wrapper` generator.  A consumer that
never pulls a single item (`some 0`) never starts the generator body, so the
`try`/`finally` is never entered and no event occurs — outside the claim's
termination paths, which all begin iterating. -/
def msgWrapperTrace {P E : Type} (stream : List P) (err : Option E) :
    Option Nat → List (Event P E)
  | some 0 => []
  | some (k + 1) => msgWrapperGo stream err (some (k + 1))
  | none => msgWrapperGo stream err none

/-- The `execute` resource scope around the Job (ll.112-156): `mp` is opened,
and a failure between the open and the Job construction (`setupErr`) is
caught by the `except Exception` clause, which calls `mp.__exit__` and
re-raises; otherwise the Job's iteration runs the `_msg_wrapper` generator. -/
def executeTrace {P E : Type} (setupErr : Option E) (stream : List P)
    (err : Option E) (limit : Option Nat) : List (Event P E) :=
  match setupErr with
  | some e => [Event.close, Event.raise e]
  | none => msgWrapperTrace stream err limit

/-- A started `_msg_wrapper` generator closes the resource exactly once. -/
theorem msgWrapperGo_closeCount {P E : Type} (stream : List P) (err : Option E)
    (limit : Option Nat) : closeCount (msgWrapperGo stream err limit) = 1 := by
  induction stream generalizing limit with
  | nil =>
    cases limit with
    | none =>
      cases err <;>
        simp [msgWrapperGo, closeCount, List.countP_cons, List.countP_nil, isCloseEvent]
    | some k =>
      cases k with
      | zero =>
        simp [msgWrapperGo, closeCount, List.countP_cons, List.countP_nil, isCloseEvent]
      | succ n =>
        cases err <;>
          simp [msgWrapperGo, closeCount, List.countP_cons, List.countP_nil, isCloseEvent]
  | cons p rest ih =>
    cases limit with
    | none =>
      simpa [msgWrapperGo, closeCount, List.countP_cons, isCloseEvent] using ih none
    | some k =>
      cases k with
      | zero =>
        simp [msgWrapperGo, closeCount, List.countP_cons, List.countP_nil, isCloseEvent]
      | succ n =>
        simpa [msgWrapperGo, closeCount, List.countP_cons, isCloseEvent] using ih (some n)

/-- C3: on every termination path of a started run — natural exhaustion of the
stream, an exception raised mid-stream by `batch_processor`, early abandonment
by the consumer after `k ≥ 1` items, or a failure after `mp` is opened but
before the Job is constructed — `mp.__exit__` is called exactly once. -/
theorem resource_closed_exactly_once {P E : Type} (setupErr : Option E)
    (stream : List P) (err : Option E) (limit : Option Nat)
    (hstarted : limit ≠ some 0) :
    closeCount (executeTrace setupErr stream err limit) = 1 := by
  cases setupErr with
  | some e =>
    simp [executeTrace, closeCount, List.countP_cons, List.countP_nil, isCloseEvent]
  | none =>
    cases limit with
    | none =>
      simpa [executeTrace, msgWrapperTrace] using msgWrapperGo_closeCount stream err none
    | some k =>
      cases k with
      | zero => exact absurd rfl hstarted
      | succ n =>
        simpa [executeTrace, msgWrapperTrace]
          using msgWrapperGo_closeCount stream err (some (n + 1))

/-- C3 witness: three yielded items, the consumer abandons after the first —
the resource is closed exactly once. -/
theorem resource_closed_exactly_once_witness :
    ((some 1 : Option Nat) ≠ some 0)
    ∧ closeCount (executeTrace (P := Nat) (E := Nat) none [10, 11, 12] none (some 1)) = 1 :=
  ⟨by decide, resource_closed_exactly_once none [10, 11, 12] none (some 1) (by decide)⟩

/-- The Job as the convert CLI sees it (its construction lives in
`commands.convert`, outside these sources): a known `total` and the items its
iteration would produce by driving the underlying Executor. -/
structure JobModel (P : Type) where
  total : Nat
  items : List P
deriving DecidableEq

/-- The convert CLI body (src/mapchete/cli/default/convert.py ll.115-132):
after building the job, `if not len(job): return` exits before iterating;
otherwise `list(tqdm.tqdm(job, ...))` drains it.  `none` means convert
returned without consuming the job (the underlying Executor is never
invoked); `some l` means the job was drained producing `l`. -/
def convertRun {P : Type} (job : JobModel P) : Option (List P) :=
  if job.total = 0 then none else some job.items

/-- C4: a Job with `total = 0` makes the convert command return immediately,
before consuming the job — the iteration, and with it the underlying
Executor, is skipped entirely. -/
theorem convert_skips_empty_job {P : Type} (job : JobModel P)
    (h : job.total = 0) : convertRun job = none := by
  simp [convertRun, h]

/-- C4 witness: a zero-total job is skipped. -/
theorem convert_skips_empty_job_witness :
    (JobModel.mk 0 ([] : List Nat)).total = 0
    ∧ convertRun (JobModel.mk 0 ([] : List Nat)) = none :=
  ⟨rfl, convert_skips_empty_job (JobModel.mk 0 ([] : List Nat)) rfl⟩

/-- Modelled from the spec: the `Executor`/`Future` implementation is not
among the sources (only `src/test/test_executor.py` and the callers are), so
the Future is modelled from §3: a handle holding the captured task outcome
and a cancelled flag. -/
structure SFuture (E β : Type) where
  outcome : Except E β
  cancelled : Bool

/-- Modelled from the spec: submitting one Task runs `fn(item)` with any
raised error captured into the Future as a failure (§4.1 error handling). -/
def runTask {α E β : Type} (f : α → Except E β) (i : α) : SFuture E β :=
  { outcome := f i, cancelled := false }

/-- Modelled from the spec: the Future's result accessor re-raises the
captured failure at the point it is called (§4.1, §6). -/
def SFuture.result {E β : Type} (fut : SFuture E β) : Except E β :=
  fut.outcome

/-- Modelled from the spec: sequential-mode `as_completed` executes each Task
synchronously on the calling thread, in input order, producing one Future per
item (§4.1 none/sequential). -/
def seqAsCompleted {α E β : Type} (f : α → Except E β) (items : List α) :
    List (SFuture E β) :=
  items.map (runTask f)

/-- An exception-propagating loop: the run of an iteration whose body may
raise, where an error in any step escapes the whole loop to the caller. -/
def mapE {α E β : Type} (g : α → Except E β) : List α → Except E (List β)
  | [] => Except.ok []
  | a :: rest =>
    match g a with
    | Except.error e => Except.error e
    | Except.ok b => Except.map (fun bs => b :: bs) (mapE g rest)

/-- Modelled from the spec: a full `as_completed` run viewed as a computation
a task error could in principle escape from — each submission wraps the task
callable so that its error is captured into the Future instead (§4.1). -/
def asCompletedRun {α E β : Type} (f : α → Except E β) (items : List α) :
    Except E (List (SFuture E β)) :=
  mapE (fun i => Except.ok (runTask f i)) items

/-- C5: sequential `as_completed` yields exactly one Future per input item,
the i-th Future corresponding to the i-th item; concretely, 10 tasks with the
function mapping i to i + 1 yield the results 1..10 in order. -/
theorem seq_as_completed_preserves_order :
    (∀ (α E β : Type) (f : α → Except E β) (items : List α),
      (seqAsCompleted f items).length = items.length
      ∧ ∀ i : Nat, (seqAsCompleted f items)[i]? = (items[i]?).map (runTask f))
    ∧ (seqAsCompleted (fun i => (Except.ok (i + 1) : Except Unit Nat))
          (List.range 10)).map SFuture.outcome
      = [Except.ok 1, Except.ok 2, Except.ok 3, Except.ok 4, Except.ok 5,
         Except.ok 6, Except.ok 7, Except.ok 8, Except.ok 9, Except.ok 10] := by
  refine ⟨fun α E β f items => ⟨by simp [seqAsCompleted], fun i => ?_⟩, by rfl⟩
  simp [seqAsCompleted, List.getElem?_map]

/-- C7: `as_completed` itself never raises — its run returns the full list of
Futures — and a task whose callable raises has that error captured; the
caller observes it only through the Future's result accessor, which re-raises
the captured error. -/
theorem as_completed_captures_errors {α E β : Type} (f : α → Except E β)
    (items : List α) :
    asCompletedRun f items = Except.ok (seqAsCompleted f items)
    ∧ ∀ (i : α) (e : E), f i = Except.error e →
        (runTask f i).result = Except.error e := by
  constructor
  · induction items with
    | nil => rfl
    | cons a rest ih =>
      simp only [asCompletedRun, mapE] at ih ⊢
      rw [ih]
      rfl
  · intro i e h
    simp [runTask, SFuture.result, h]

/-- C7 witness: a task that raises the error 7 — `as_completed` returns all
Futures, and the result accessor of that task's Future re-raises error 7. -/
theorem as_completed_captures_errors_witness :
    ((fun _ : Nat => (Except.error 7 : Except Nat Nat)) 0 = Except.error 7)
    ∧ asCompletedRun (fun _ : Nat => (Except.error 7 : Except Nat Nat)) [0]
        = Except.ok (seqAsCompleted (fun _ : Nat => (Except.error 7 : Except Nat Nat)) [0])
    ∧ (runTask (fun _ : Nat => (Except.error 7 : Except Nat Nat)) 0).result
        = Except.error 7 :=
  ⟨rfl,
    (as_completed_captures_errors (fun _ : Nat => (Except.error 7 : Except Nat Nat)) [0]).1,
    (as_completed_captures_errors (fun _ : Nat => (Except.error 7 : Except Nat Nat)) [0]).2
      0 7 rfl⟩

/-- Modelled from the spec: the state of one tracked Future of a bounded-pool
(processes/threads) Executor at the moment the consumer has taken the first
result: already finished, currently running on a worker, not yet started
(pending), or cancelled (§3 Future states). -/
inductive FutState where
  | finished
  | running
  | pending
  | cancelled
deriving DecidableEq

/-- True exactly for a cancelled Future state. -/
def FutState.isCancelled : FutState → Bool
  | FutState.cancelled => true
  | _ => false

/-- Modelled from the spec: `cancel()` requests cancellation for every
tracked Future not yet completed; a not-yet-started (pending) Future is
marked cancelled, while finished and already-running ones are not preempted
(§4.1 `cancel()`, §5 Cancellation). -/
def cancelAll (fs : List FutState) : List FutState :=
  fs.map fun s => if s = FutState.pending then FutState.cancelled else s

/-- Every tracked Future is in exactly one of the four states. -/
theorem futState_count_partition (fs : List FutState) :
    fs.length = fs.count FutState.finished + fs.count FutState.running
      + fs.count FutState.pending + fs.count FutState.cancelled := by
  induction fs with
  | nil => simp
  | cons s rest ih =>
    cases s <;> simp [List.count_cons, ih] <;> omega

/-- C6 counterexample: N = 2 tasks, `max_workers = 1 < N`.  After the first
Future is consumed, the freed worker may already be running the second task —
one Future finished and one running is a state the pool bound allows — and
`cancel()` then marks no tracked Future cancelled, refuting the claim for
every `max_workers < N`. -/
theorem cancel_after_first_claim_counterexample :
    ([FutState.finished, FutState.running].count FutState.finished = 1
      ∧ [FutState.finished, FutState.running].count FutState.running ≤ 1
      ∧ [FutState.finished, FutState.running].count FutState.cancelled = 0
      ∧ 1 < [FutState.finished, FutState.running].length)
    ∧ (cancelAll [FutState.finished, FutState.running]).any FutState.isCancelled
        = false := by
  decide

/-- C6 (amended): under processes/threads concurrency, if when `cancel()` is
called exactly one task has finished, at most `max_workers` tasks are running
(the pool bound, the rest still sleeping), no Future was cancelled before,
and more tasks were submitted than could have been dispatched
(`max_workers + 1 < N`), then at least one tracked Future reports
`cancelled() == true`. -/
theorem cancel_after_first_marks_some_future (fs : List FutState) (w : Nat)
    (hfin : fs.count FutState.finished = 1)
    (hrun : fs.count FutState.running ≤ w)
    (hpre : fs.count FutState.cancelled = 0)
    (hN : w + 1 < fs.length) :
    (cancelAll fs).any FutState.isCancelled = true := by
  have hpend : 0 < fs.count FutState.pending := by
    have h := futState_count_partition fs
    omega
  have hmem : FutState.pending ∈ fs := List.count_pos_iff.mp hpend
  have hc : FutState.cancelled ∈ cancelAll fs := by
    simp only [cancelAll, List.mem_map]
    exact ⟨FutState.pending, hmem, by simp⟩
  rw [List.any_eq_true]
  exact ⟨FutState.cancelled, hc, rfl⟩

/-- C6 witness: the test scenario — 100 tasks, 2 workers, one task finished
and both workers busy at cancel time — leaves a cancelled Future. -/
theorem cancel_after_first_marks_some_future_witness :
    ((FutState.finished :: FutState.running :: FutState.running ::
        List.replicate 97 FutState.pending).count FutState.finished = 1
      ∧ (FutState.finished :: FutState.running :: FutState.running ::
        List.replicate 97 FutState.pending).count FutState.running ≤ 2
      ∧ (FutState.finished :: FutState.running :: FutState.running ::
        List.replicate 97 FutState.pending).count FutState.cancelled = 0
      ∧ 2 + 1 < (FutState.finished :: FutState.running :: FutState.running ::
        List.replicate 97 FutState.pending).length)
    ∧ (cancelAll (FutState.finished :: FutState.running :: FutState.running ::
        List.replicate 97 FutState.pending)).any FutState.isCancelled = true :=
  ⟨⟨by decide, by decide, by decide, by decide⟩,
    cancel_after_first_marks_some_future
      (FutState.finished :: FutState.running :: FutState.running ::
        List.replicate 97 FutState.pending) 2
      (by decide) (by decide) (by decide) (by decide)⟩

end Mapchete
